import Mathlib

/-!
Verification of the Voice_AI repository's core components against its
specification: audio capture with VAD endpointing (`modules/recording.py`),
exclusive-access playback and notification tones (`modules/audio_player.py`),
the conversation loop (`main.py`), LLM reply post-processing
(`modules/llm.py`), and the asynchronous TTS job service
(`tts_service/app.py`).

Python strings are embedded as `List Char` (sequences of code points) or
`String`; Python floats are embedded as exact rationals `ℚ` where the code's
arithmetic is exact order/comparison logic, and as reals `ℝ` where the code
produces signal data (sine waves, sqrt-based normalisation).  Fallible
operations return `Option`/`Except`; HTTP error responses are `Except` errors
carrying the status code.
-/

namespace VoiceAI

/-! ## Python string primitives -/

/-- Python `str.isspace` on the ASCII whitespace characters, which is the set
relevant to `str.strip()` for all inputs considered here. -/
def isPySpace (c : Char) : Bool :=
  c = ' ' || c = '\t' || c = '\n' || c = '\r' || c = '\x0b' || c = '\x0c'

/-- Python `str.strip()` on a sequence of code points: remove leading and
trailing whitespace. -/
def pyStrip (l : List Char) : List Char :=
  (l.rdropWhile isPySpace).dropWhile isPySpace

/-- Python `str.strip()` on a `String`. -/
def pyStripS (s : String) : String :=
  String.mk (pyStrip s.data)

/-- Python `str.endswith` / `Path.glob("*.wav")` membership: code-point
suffix test. -/
def pyEndsWith (s suffix : String) : Bool :=
  suffix.data.isSuffixOf s.data

/-! ## Configuration constants (`config/config.py`, `AudioConfig` defaults) -/

/-- `config.audio.sample_rate` -/
def cfgSampleRate : ℕ := 16000

/-- `config.audio.silence_threshold` -/
def cfgSilenceThreshold : ℚ := 1/100

/-- `config.audio.silence_duration` -/
def cfgSilenceDuration : ℚ := 2

/-- `config.audio.record_timeout` -/
def cfgRecordTimeout : ℚ := 5

/-! ## AudioPlayer (`modules/audio_player.py`)

The mutable fields of `AudioPlayer` that the playback operations read or
write: `is_playing` and whether `play_thread` exists and is alive.  Callback
fields are `None` in every construction site of the repository and are
omitted.  Device interaction (`sd.play`/`sd.wait`) is the external
collaborator; its success or failure enters as the `deviceOk` parameter. -/

structure PlayerState where
  is_playing : Bool
  playThreadAlive : Bool
deriving DecidableEq, Repr

/-- `AudioPlayer.__init__`: `is_playing = False`, `play_thread = None`. -/
def initPlayer : PlayerState :=
  ⟨false, false⟩

/-- `AudioPlayer._play_blocking`: sets `is_playing`, plays, clears
`is_playing` (also cleared on the exception path), returns `True` on success
and `False` on a device error. -/
def play_blocking (s : PlayerState) (deviceOk : Bool) : PlayerState × Bool :=
  if deviceOk then ({ s with is_playing := false }, true)
  else ({ s with is_playing := false }, false)

/-- `AudioPlayer._play_non_blocking`: refuses if a play thread is still
alive, otherwise spawns the worker thread and returns `True` immediately. -/
def play_non_blocking (s : PlayerState) : PlayerState × Bool :=
  if s.playThreadAlive then (s, false)
  else ({ s with playThreadAlive := true }, true)

/-- `AudioPlayer.play_audio_array(audio, sample_rate, blocking)`.  Returns
the updated player state and the Python return value.  `audio = none` models
Python `None`. -/
def play_audio_array (s : PlayerState) (audio : Option (List ℝ))
    (blocking : Bool) (deviceOk : Bool) : PlayerState × Bool :=
  match audio with
  | none => (s, false)
  | some a =>
    if a.length = 0 then (s, false)
    else if s.is_playing then (s, false)
    else if blocking then play_blocking s deviceOk
    else play_non_blocking s

/-- `AudioPlayer.play_audio_file(file_path, blocking)`: checks that the file
exists, checks `is_playing`, loads the audio (`loaded` is the collaborator
result of `load_audio`) and delegates to `play_audio_array`. -/
def play_audio_file (s : PlayerState) (fileExists : Bool)
    (loaded : Option (List ℝ)) (blocking : Bool) (deviceOk : Bool) :
    PlayerState × Bool :=
  if !fileExists then (s, false)
  else if s.is_playing then (s, false)
  else play_audio_array s loaded blocking deviceOk

/-- `AudioPlayer.stop_playing()`.  The Python function has no `return`
statement, so it always returns `None`; the second component is the returned
value, where `none` is Python `None`. -/
def stop_playing (s : PlayerState) : PlayerState × Option Bool :=
  if s.is_playing then ({ s with is_playing := false }, none)
  else (s, none)

/-! ## Notification tones (`AudioPlayer.play_notification`) -/

/-- The frequency table and per-tone duration selected by
`play_notification` for each `notification_type` (durations in seconds). -/
def notificationParams (ntype : String) : List ℚ × ℚ :=
  if ntype = "success" then ([523, 659, 784], 15/100)
  else if ntype = "error" then ([523, 440, 349], 2/10)
  else if ntype = "info" then ([659], 1/10)
  else ([523], 1/10)

/-- One procedurally generated tone:
`t = np.linspace(0, duration, int(sample_rate*duration), False)` followed by
`0.2 * np.sin(2*np.pi*freq*t)`, so sample `k` of `N = int(sr*d)` samples is
`0.2 * sin(2*pi*f*(k*d/N))`. -/
noncomputable def toneSamples (sr : ℕ) (f : ℚ) (d : ℚ) : List ℝ :=
  let N : ℕ := (⌊(sr : ℚ) * d⌋).toNat
  (List.range N).map fun (k : ℕ) =>
    (2/10 : ℝ) * Real.sin (2 * Real.pi * (f : ℝ) * ((k : ℕ) * (d : ℚ) / (N : ℕ) : ℝ))

/-- The 10 ms fade-in/fade-out of `play_notification` (and `play_beep`):
`fade_samples = int(0.01*sr)`; when the signal is longer than
`2*fade_samples`, the first `fade_samples` samples are scaled by
`np.linspace(0,1,fade_samples)` and the last by `np.linspace(1,0,fade_samples)`
(default inclusive endpoints, so position `i` from the front is scaled by
`i/(fade_samples-1)` and position `i` overall in the tail window by
`(len-1-i)/(fade_samples-1)`). -/
noncomputable def applyFade (sr : ℕ) (xs : List ℝ) : List ℝ :=
  let fs : ℕ := (⌊(sr : ℚ) * (1/100)⌋).toNat
  if 2 * fs < xs.length then
    xs.mapIdx fun i x =>
      if i < fs then x * ((i : ℝ) / ((fs : ℝ) - 1))
      else if xs.length - fs ≤ i then x * (((xs.length : ℝ) - 1 - (i : ℝ)) / ((fs : ℝ) - 1))
      else x
  else xs

/-- The audio buffer generated by `play_notification(notification_type)`:
the per-frequency tones are generated, concatenated, and faded. -/
noncomputable def playNotificationAudio (ntype : String) : List ℝ :=
  let p := notificationParams ntype
  applyFade cfgSampleRate (((p.1).map fun f => toneSamples cfgSampleRate f p.2).flatten)

/-- `AudioPlayer.play_notification`: generates the tone sequence and plays it
non-blocking through `play_audio_array`. -/
noncomputable def play_notification (s : PlayerState) (ntype : String)
    (deviceOk : Bool) : PlayerState × Bool :=
  play_audio_array s (some (playNotificationAudio ntype)) false deviceOk

/-! ## AudioRecorder.record_with_vad (`modules/recording.py`)

The capture loop reads one fixed-size chunk per iteration; `current_time` is
sampled at the top of each iteration.  The embedding processes a list of
`(timestamp, chunk)` pairs: the timestamp is the value of `current_time` in
that iteration and the chunk is what `stream.read` returned.  Samples are
rationals; chunks are mono because `config.audio.channels = 1`. -/

structure VadParams where
  silence_threshold : ℚ
  silence_duration : ℚ
  min_duration : ℚ
  max_duration : ℚ
deriving DecidableEq, Repr

/-- The recorder's VAD parameters at the repository's defaults, as used by
`main.py::_record_audio` except that `max_duration` there is 30; the spec's
testable property uses `max_duration = 5`. -/
def defaultVadParams : VadParams :=
  ⟨cfgSilenceThreshold, cfgSilenceDuration, 1, 5⟩

/-- `np.mean(audio_chunk**2)`: the mean of the squared samples.  Only applied
to nonempty chunks (the loop guards on `len(audio_chunk) > 0`). -/
def chunkEnergy (c : List ℚ) : ℚ :=
  (c.map fun x => x * x).sum / (c.length : ℚ)

/-- The loop-carried VAD flags: `speech_detected` and `speech_end_time`
(`none` is Python `None`; the stored value is the absolute timestamp). -/
structure VadState where
  speech_detected : Bool
  speech_end_time : Option ℚ
deriving DecidableEq, Repr

/-- Initial VAD state: `speech_detected = False`, `speech_end_time = None`. -/
def initVadState : VadState :=
  ⟨false, none⟩

/-- Python truthiness of the `speech_end_time` variable (a float or `None`):
falsy exactly for `None` and `0.0`. -/
def timeTruthy : Option ℚ → Bool
  | none => false
  | some v => v ≠ 0

/-- One iteration's update of the VAD flags (`record_with_vad`, the
`if len(audio_chunk) > 0` block): speech resets the silence marker; silence
records its start time once speech has been observed. -/
def vadUpdate (p : VadParams) (st : VadState) (t : ℚ) (c : List ℚ) : VadState :=
  if 0 < c.length then
    if chunkEnergy c > p.silence_threshold then ⟨true, none⟩
    else if st.speech_detected && st.speech_end_time = none then
      ⟨st.speech_detected, some t⟩
    else st
  else st

/-- The unconditional stop check: `recording_duration > max_duration`
(strict comparison, as in the source). -/
def vadStopMax (p : VadParams) (t0 t : ℚ) : Bool :=
  decide (t - t0 > p.max_duration)

/-- The endpointing stop check:
`recording_duration > min_duration and speech_detected and speech_end_time
and current_time - speech_end_time > silence_duration` (strict comparisons,
and `speech_end_time` tested for truthiness, as in the source). -/
def vadStopSilence (p : VadParams) (t0 : ℚ) (st : VadState) (t : ℚ) : Bool :=
  decide (t - t0 > p.min_duration) && st.speech_detected &&
    timeTruthy st.speech_end_time &&
    (match st.speech_end_time with
     | some s => decide (t - s > p.silence_duration)
     | none => false)

/-- Why the capture loop ended. -/
inductive StopCause where
  | maxDur
  | silenceEnd
  | exhausted
deriving DecidableEq, Repr

/-- Result of the capture loop: the chunks accumulated in `self.audio_data`,
the number of loop iterations executed, and why the loop stopped
(`exhausted` means the supplied input prefix ended before a stop condition
fired; the real stream never ends). -/
structure VadResult where
  chunks : List (List ℚ)
  consumed : ℕ
  cause : StopCause
deriving DecidableEq, Repr

/-- The `while self.is_recording` loop of `record_with_vad`: read a chunk,
append it (if nonempty), update the VAD flags, then test the two stop
conditions in source order (`max_duration` first).  `t0` is
`recording_start_time`. -/
def vadLoop (p : VadParams) (t0 : ℚ) :
    VadState → List (List ℚ) → ℕ → List (ℚ × List ℚ) → VadResult
  | _, acc, n, [] => ⟨acc, n, .exhausted⟩
  | st, acc, n, (t, c) :: rest =>
    let acc' := if 0 < c.length then acc ++ [c] else acc
    let st' := vadUpdate p st t c
    if vadStopMax p t0 t then ⟨acc', n + 1, .maxDur⟩
    else if vadStopSilence p t0 st' t then ⟨acc', n + 1, .silenceEnd⟩
    else vadLoop p t0 st' acc' (n + 1) rest

/-- The capture phase of `record_with_vad` from freshly reset state. -/
def vadCapture (p : VadParams) (t0 : ℚ) (input : List (ℚ × List ℚ)) : VadResult :=
  vadLoop p t0 initVadState [] 0 input

/-- Modelled from the spec for the external `librosa.effects.trim` call in
`AudioProcessor.trim_silence`: "trim leading/trailing silence below
threshold" — samples whose energy is below the threshold are removed from
both ends. -/
def trim_silence (thr : ℚ) (l : List ℚ) : List ℚ :=
  ((l.dropWhile fun x => decide (x * x < thr)).rdropWhile fun x => decide (x * x < thr))

/-- `AudioProcessor.normalize_audio` with the default `target_level = -20` dB:
`target_rms = 10^(-1)`; scale to that RMS, then scale down to peak `0.95` if
the result would clip. -/
noncomputable def normalize_audio (l : List ℚ) : List ℝ :=
  let rms : ℝ := Real.sqrt (((l.map fun x => ((x : ℝ))^2).sum) / (l.length : ℝ))
  if rms > 0 then
    let gain : ℝ := (1/10) / rms
    let scaled := l.map fun x => (x : ℝ) * gain
    let peak := (scaled.map fun x => |x|).foldr max 0
    if peak > 95/100 then scaled.map fun x => x / peak * (95/100)
    else scaled
  else l.map fun x => (x : ℝ)

/-- The post-processing pipeline applied to the concatenated recording:
mono conversion (the identity at `channels = 1`), silence trimming with the
configured threshold, then RMS normalisation. -/
noncomputable def recordPostProcess (l : List ℚ) : List ℝ :=
  normalize_audio (trim_silence cfgSilenceThreshold l)

/-- `AudioRecorder.record_with_vad`: run the capture loop, then return the
post-processed concatenation of the accumulated chunks — or `None` when no
chunk was accumulated. -/
noncomputable def record_with_vad (p : VadParams) (t0 : ℚ)
    (input : List (ℚ × List ℚ)) : Option (List ℝ) :=
  let r := vadCapture p t0 input
  if r.chunks ≠ [] then some (recordPostProcess r.chunks.flatten) else none

/-- The combined (strict) stop condition the source tests after updating the
flags in an iteration. -/
def codeStop (p : VadParams) (t0 : ℚ) (st : VadState) (t : ℚ) : Bool :=
  vadStopMax p t0 t || vadStopSilence p t0 st t

/-- Index of the first iteration at which the source's (strict) stop
condition holds, threading the flag updates exactly as the loop does. -/
def codeStopAfter (p : VadParams) (t0 : ℚ) :
    VadState → List (ℚ × List ℚ) → Option ℕ
  | _, [] => none
  | st, (t, c) :: rest =>
    let st' := vadUpdate p st t c
    if codeStop p t0 st' t then some 0
    else (codeStopAfter p t0 st' rest).map (· + 1)

/-- The stop condition as the claim words it (for comparison with the
source): stop when `elapsed ≥ minDuration` and the current sub-threshold
silence run has reached `silenceDuration`, or unconditionally when
`elapsed ≥ maxDuration` — non-strict comparisons. -/
def claimStop (p : VadParams) (t0 : ℚ) (st : VadState) (t : ℚ) : Bool :=
  decide (t - t0 ≥ p.max_duration) ||
    (decide (t - t0 ≥ p.min_duration) &&
      (match st.speech_end_time with
       | some s => decide (t - s ≥ p.silence_duration)
       | none => false))

/-- Index of the first iteration at which the claim's (non-strict) stop
condition holds. -/
def claimStopAfter (p : VadParams) (t0 : ℚ) :
    VadState → List (ℚ × List ℚ) → Option ℕ
  | _, [] => none
  | st, (t, c) :: rest =>
    let st' := vadUpdate p st t c
    if claimStop p t0 st' t then some 0
    else (claimStopAfter p t0 st' rest).map (· + 1)

/-! ## LLM reply post-processing (`modules/llm.py`) -/

/-- The fallback reply substituted for an empty generation result
(`llm.py::_post_process_response` and `main.py::_conversation_loop`). -/
def emptyReplyFallback : String := "嬛嬛一时无言，请稍等片刻。"

/-- The length guard of `_post_process_response`:
`if len(response) > 200: response = response[:200] + "..."`. -/
def truncate200 (r : List Char) : List Char :=
  if r.length > 200 then r.take 200 ++ "...".data else r

/-- `LLMProcessor._post_process_response`: empty input gets the fallback;
otherwise strip, hard-truncate to 200 characters plus `"..."` when longer
than 200, and replace with a default when shorter than 3 after stripping.
The sentence-boundary truncation block in the source is commented out. -/
def post_process_response (response : List Char) : List Char :=
  if response = [] then emptyReplyFallback.data
  else
    if (pyStrip (truncate200 (pyStrip response))).length < 3 then "嬛嬛明白了。".data
    else truncate200 (pyStrip response)

/-! ## Conversation loop (`main.py`) -/

/-- What one iteration of `VoiceAISystem._conversation_loop` does with its
collaborators' results. -/
inductive TurnOutcome where
  | skippedNoAudio
  | skippedEmptyTranscript
  | completedTurn (reply : String)
deriving DecidableEq, Repr

/-- `VoiceAISystem._generate_response`: strips the LLM's reply; an exception
(`llmReply = none`) becomes the canned apology. -/
def generate_response_wrapper (llmReply : Option String) : String :=
  match llmReply with
  | some r => pyStripS r
  | none => "嬛嬛有些不适，稍后再聊吧。"

/-- One iteration of `_conversation_loop` as a function of the collaborator
results: the recorded audio (after `_record_audio`'s checks), the raw
transcript, and the LLM reply (`none` models an exception inside
`_generate_response`).  `completedTurn reply` means the turn reached step 4
(`_speak(reply)`, i.e. synthesis and playback) with that reply. -/
def conversationTurn (audio : Option (List ℝ)) (transcriptRaw : String)
    (llmReply : Option String) : TurnOutcome :=
  match audio with
  | none => .skippedNoAudio
  | some _ =>
    let text := pyStripS transcriptRaw
    if pyStripS text = "" then .skippedEmptyTranscript
    else
      let response := generate_response_wrapper llmReply
      let response' := if pyStripS response = "" then emptyReplyFallback else response
      .completedTurn response'

/-! ## TTS job service (`tts_service/app.py`) -/

/-- Job status values of `TTSStatus.status`. -/
inductive JobStatus where
  | pending
  | processing
  | completed
  | failed
deriving DecidableEq, Repr

/-- A terminal job status. -/
def JobStatus.isTerminal : JobStatus → Bool
  | .completed => true
  | .failed => true
  | _ => false

/-- The `TTSStatus` record stored in `task_status`. -/
structure TTSStatus where
  status : JobStatus
  progress : ℚ
  result : Option String
  error : Option String
deriving DecidableEq, Repr

/-- The record written by `synthesize_speech_async` when it accepts a job. -/
def initialJobRecord : TTSStatus :=
  ⟨.pending, 0, none, none⟩

/-- Outcome of the external synthesis collaborator call inside
`process_tts_async` (`tts_processor.synthesize_speech*`): either it returns
(`result_path`, with whether that path exists on disk), or it raises. -/
inductive SynthOutcome where
  | ok (resultPath : Option String) (pathExists : Bool)
  | raises (msg : String)
deriving DecidableEq, Repr

/-- Python truthiness of `result_path and os.path.exists(result_path)`. -/
def synthSucceeded : SynthOutcome → Bool
  | .ok (some p) ex => decide (p ≠ "") && ex
  | .ok none _ => false
  | .raises _ => false

/-- The sequence of `task_status[task_id]` record values over a job's
lifetime, one entry per mutation, starting from the record written by
`synthesize_speech_async` and following `process_tts_async` statement by
statement. -/
def jobWriteTrace (taskId fmt : String) (oc : SynthOutcome) : List TTSStatus :=
  let s0 := initialJobRecord
  let s1 := { s0 with status := .processing }
  let s2 := { s1 with progress := 1/10 }
  let s3 := { s2 with progress := 3/10 }
  match oc with
  | .raises msg =>
    [s0, s1, s2, s3, { s3 with status := .failed },
      { s3 with status := .failed, error := some msg }]
  | .ok rp ex =>
    let s4 := { s3 with progress := 9/10 }
    if synthSucceeded (.ok rp ex) then
      let s5 := { s4 with status := .completed }
      let s6 := { s5 with progress := 1 }
      let s7 := { s6 with result := some ("/tts/audio/" ++ taskId ++ "." ++ fmt) }
      [s0, s1, s2, s3, s4, s5, s6, s7]
    else
      [s0, s1, s2, s3, s4, { s4 with status := .failed },
        { s4 with status := .failed, error := some "Speech synthesis failed" }]

/-- `cleanup_old_files`: delete every `*.wav` file in the output directory
whose age exceeds 60 seconds.  The store is a list of
`(filename, modification time)` pairs; timestamps are rationals. -/
def cleanup_old_files (now : ℚ) (files : List (String × ℚ)) :
    List (String × ℚ) :=
  files.filter fun f => !(pyEndsWith f.1 ".wav" && decide (now - f.2 > 60))

/-- `GET /tts/audio/{filename}` (`get_audio_file`): 404 when the file does
not exist, otherwise the file response. -/
def get_audio_file (files : List (String × ℚ)) (filename : String) :
    Except ℕ String :=
  if files.any (fun f => f.1 = filename) then .ok filename else .error 404

/-- `GET /tts/status/{task_id}` (`get_task_status`): 404 when the id is not
in `task_status`, otherwise the stored record. -/
def get_task_status (table : List (String × TTSStatus)) (id : String) :
    Except ℕ TTSStatus :=
  match table.lookup id with
  | some st => .ok st
  | none => .error 404

/-- `str(HTTPException(400, detail))` as re-wrapped by the generic handler. -/
def httpExcStr (code : ℕ) (detail : String) : String :=
  toString code ++ ": " ++ detail

/-- `POST /tts/synthesize_async` (`synthesize_speech_async`): the 503 check
runs outside the `try`; inside it, the two validation `HTTPException(400)`s
are caught by the endpoint's own `except Exception` clause (fastapi's
`HTTPException` subclasses `Exception`) and re-raised as
`HTTPException(500, "Internal server error: " + str(e))`.  On success the
job table gains a fresh pending entry and the new task id is returned. -/
def synthesize_speech_async (processorReady : Bool)
    (table : List (String × TTSStatus)) (text : String) (newId : String) :
    List (String × TTSStatus) × Except (ℕ × String) String :=
  if !processorReady then (table, .error (503, "TTS processor not initialized"))
  else if pyStripS text = "" then
    (table, .error (500, "Internal server error: " ++ httpExcStr 400 "Text cannot be empty"))
  else if text.length > 1000 then
    (table, .error (500, "Internal server error: " ++
      httpExcStr 400 "Text too long (max 1000 characters)"))
  else (table ++ [(newId, initialJobRecord)], .ok newId)

/-! ## Concrete scenario inputs and auxiliary relations used by the claims -/

/-- A 251-character generation result containing a sentence boundary (`。`)
well inside the 200-character cap. -/
def c9Input : List Char :=
  List.replicate 10 'a' ++ '。' :: List.replicate 240 'a'

/-- A recording in which every chunk is silent: timestamps one second apart,
all chunk energies `0 < silence_threshold`. -/
def c1Input : List (ℚ × List ℚ) :=
  [(0, [0]), (1, [0]), (2, [0]), (3, [0]), (4, [0]), (5, [0]), (6, [0])]

/-- A recording with speech in the first chunk and silence from `t = 1` on,
sampled so that the silence run is exactly `silence_duration = 2` at the
iteration with `t = 3` and first strictly exceeds it at `t = 4`. -/
def c2Input : List (ℚ × List ℚ) :=
  [(0, [1]), (1, [0]), (2, [0]), (3, [0]), (4, [0])]

/-- Relation between successive job-record writes (projected to status and
progress) expressing the terminal-state freeze discipline that the code
actually maintains: a terminal status is never overwritten, progress is
frozen from the moment a job fails, and progress is frozen at `1` (with
status `completed`) from the moment it reaches `1`. -/
def freezeRel (a b : JobStatus × ℚ) : Prop :=
  (a.1.isTerminal = true → b.1 = a.1) ∧
  (a.1 = .failed → b.2 = a.2) ∧
  (a.2 = 1 → b.2 = 1 ∧ b.1 = .completed)

/-! ## Helper lemmas about `pyStrip` -/

theorem pyStrip_nil : pyStrip [] = [] := by
  rfl

theorem pyStrip_get_zero_not_space (l : List Char) (h : 0 < (pyStrip l).length) :
    isPySpace ((pyStrip l).get ⟨0, h⟩) = false := by
  have := List.dropWhile_get_zero_not isPySpace (l.rdropWhile isPySpace) h
  simpa [pyStrip] using this

theorem pyStrip_getLast_not_space (l : List Char) (h : pyStrip l ≠ []) :
    isPySpace ((pyStrip l).getLast h) = false := by
  have h2 : l.rdropWhile isPySpace ≠ [] := by
    intro he
    apply h
    simp [pyStrip, he]
  have hsuff : pyStrip l <:+ l.rdropWhile isPySpace := List.dropWhile_suffix _
  have heq := hsuff.getLast h
  have hlast := List.rdropWhile_last_not isPySpace l h2
  rw [heq]
  simpa using hlast

theorem pyStrip_eq_self (l : List Char)
    (hh : ∀ h : 0 < l.length, isPySpace (l.get ⟨0, h⟩) = false)
    (hl : ∀ h : l ≠ [], isPySpace (l.getLast h) = false) :
    pyStrip l = l := by
  unfold pyStrip
  rw [List.rdropWhile_eq_self_iff.2 (by simpa using hl)]
  rw [List.dropWhile_eq_self_iff.2 (by simpa using hh)]

theorem pyStrip_idem (l : List Char) : pyStrip (pyStrip l) = pyStrip l := by
  by_cases h : pyStrip l = []
  · rw [h, pyStrip_nil]
  · exact pyStrip_eq_self _ (fun h0 => pyStrip_get_zero_not_space l h0)
      (fun h1 => pyStrip_getLast_not_space l h1)

theorem pyStrip_length_le (l : List Char) : (pyStrip l).length ≤ l.length := by
  have h1 : (pyStrip l).length ≤ (l.rdropWhile isPySpace).length :=
    (List.dropWhile_suffix _).sublist.length_le
  have h2 : (l.rdropWhile isPySpace).length ≤ l.length := by
    unfold List.rdropWhile
    simpa using (List.dropWhile_suffix (l := l.reverse) isPySpace).sublist.length_le
  exact le_trans h1 h2

theorem pyStripS_data (s : String) : (pyStripS s).data = pyStrip s.data := by
  rfl

theorem pyStripS_idem (s : String) : pyStripS (pyStripS s) = pyStripS s := by
  unfold pyStripS
  apply String.ext
  simpa using pyStrip_idem s.data

theorem pyStripS_eq_empty_iff (s : String) : pyStripS s = "" ↔ pyStrip s.data = [] := by
  constructor
  · intro h
    have := congrArg String.data h
    simpa [pyStripS] using this
  · intro h
    apply String.ext
    simpa [pyStripS] using h

/-! ## C3: playback requests while busy are rejected without side effects -/

/-- C3: a `play_audio_array` or `play_audio_file` call issued while
`is_playing` is true returns `False` immediately, starts no new playback and
leaves the player state (and hence the in-flight playback) untouched. -/
theorem play_while_busy_rejected (s : PlayerState) (audio : Option (List ℝ))
    (blocking deviceOk fileExists : Bool) (loaded : Option (List ℝ))
    (h : s.is_playing = true) :
    play_audio_array s audio blocking deviceOk = (s, false) ∧
    play_audio_file s fileExists loaded blocking deviceOk = (s, false) := by
  have harr : ∀ a : Option (List ℝ),
      play_audio_array s a blocking deviceOk = (s, false) := by
    intro a
    cases a with
    | none => rfl
    | some l =>
      by_cases hl : l.length = 0 <;> simp [play_audio_array, hl, h]
  refine ⟨harr audio, ?_⟩
  by_cases hf : fileExists <;> simp [play_audio_file, hf, h, harr]

/-- Witness for C3 at a concrete busy player. -/
theorem play_while_busy_rejected_witness :
    play_audio_array ⟨true, false⟩ (some [0]) true true = (⟨true, false⟩, false) ∧
    play_audio_file ⟨true, false⟩ true (some [0]) true true = (⟨true, false⟩, false) :=
  play_while_busy_rejected ⟨true, false⟩ (some [0]) true true true (some [0]) rfl

/-! ## C4: `stop_playing` on an idle player -/

/-- C4 counterexample: on an idle player, `stop_playing` does not return
`False` — the Python function has no `return` statement and yields `None`. -/
theorem stop_playing_idle_returns_none :
    (stop_playing initPlayer).2 = none ∧ (stop_playing initPlayer).2 ≠ some false := by
  decide

/-- C4 (amended): `stop_playing` on an idle player is a no-op — it raises
nothing (the model is total), leaves the player state unchanged, and returns
`None` (not `False`). -/
theorem stop_playing_idle_noop (s : PlayerState) (h : s.is_playing = false) :
    stop_playing s = (s, none) := by
  simp [stop_playing, h]

/-- Witness for the amended C4 at the freshly initialised player. -/
theorem stop_playing_idle_noop_witness :
    stop_playing initPlayer = (initPlayer, none) :=
  stop_playing_idle_noop initPlayer rfl

/-! ## C9: reply truncation in `_post_process_response` -/

set_option maxRecDepth 4000 in
/-- C9 counterexample: on a 251-character reply with a sentence boundary at
position 10, the output has 203 characters — it is neither capped at 200
characters nor truncated at the sentence boundary (that logic is commented
out in the source). -/
theorem post_process_cap_counterexample :
    (post_process_response c9Input).length = 203 ∧
    ¬(post_process_response c9Input).length ≤ 200 ∧
    post_process_response c9Input ≠ List.replicate 10 'a' ++ ['。'] := by
  decide

/-- C9 (amended): whenever the stripped reply exceeds 200 characters, the
output is exactly its first 200 characters with `"..."` appended — 203
characters in total, with no sentence-boundary-aware truncation. -/
theorem post_process_long_truncates (s : List Char)
    (h : 200 < (pyStrip s).length) :
    post_process_response s = (pyStrip s).take 200 ++ "...".data ∧
    (post_process_response s).length = 203 := by
  have hs : s ≠ [] := by
    intro he
    rw [he, pyStrip_nil] at h
    simp at h
  have htr : truncate200 (pyStrip s) = (pyStrip s).take 200 ++ "...".data := by
    unfold truncate200
    rw [if_pos h]
  have hlen_take : ((pyStrip s).take 200).length = 200 := by
    rw [List.length_take]
    omega
  have hlen2 : (truncate200 (pyStrip s)).length = 203 := by
    rw [htr]
    simp [hlen_take]
  have h0r : 0 < (pyStrip s).length := by omega
  have h0t : 0 < ((pyStrip s).take 200).length := by
    rw [hlen_take]
    norm_num
  have hstrip' : pyStrip ((pyStrip s).take 200 ++ "...".data)
      = (pyStrip s).take 200 ++ "...".data := by
    apply pyStrip_eq_self
    · intro h0
      simp only [List.get_eq_getElem]
      rw [List.getElem_append_left h0t, List.getElem_take]
      have := pyStrip_get_zero_not_space s h0r
      simpa [List.get_eq_getElem] using this
    · intro h1
      have hd : ("...".data : List Char) ≠ [] := by decide
      rw [List.getLast_append' _ _ hd]
      have hdot : ("...".data : List Char).getLast hd = '.' := rfl
      rw [hdot]
      decide
  have hstrip : pyStrip (truncate200 (pyStrip s)) = truncate200 (pyStrip s) := by
    rw [htr]
    exact hstrip'
  unfold post_process_response
  rw [if_neg hs, hstrip, hlen2, if_neg (by norm_num)]
  exact ⟨htr, by rw [htr] at hlen2 ⊢; exact hlen2⟩

set_option maxRecDepth 4000 in
/-- Witness for the amended C9 on a concrete 201-character reply. -/
theorem post_process_long_truncates_witness :
    200 < (pyStrip (List.replicate 201 'b')).length ∧
    (post_process_response (List.replicate 201 'b') =
      (pyStrip (List.replicate 201 'b')).take 200 ++ "...".data ∧
    (post_process_response (List.replicate 201 'b')).length = 203) :=
  ⟨by decide, post_process_long_truncates (List.replicate 201 'b') (by decide)⟩

/-! ## C10: validation failures on the async synthesis endpoint -/

set_option maxRecDepth 8000 in
/-- C10: a whitespace-only or over-long (1001-character) submission is
rejected without returning a job id and without touching the job table — but
with HTTP status 500, not 400: the endpoint's own `except Exception` clause
catches the `HTTPException(400)` it just raised and re-raises it as a 500.
This evaluates the code at the failing inputs of the claim. -/
theorem synthesize_async_invalid_rejected_500
    (table : List (String × TTSStatus)) (newId : String) :
    synthesize_speech_async true table " " newId =
      (table, .error (500, "Internal server error: 400: Text cannot be empty")) ∧
    synthesize_speech_async true table (String.mk (List.replicate 1001 'a')) newId =
      (table, .error (500,
        "Internal server error: 400: Text too long (max 1000 characters)")) := by
  have hstr : ("Internal server error: " ++ httpExcStr 400 "Text cannot be empty")
      = "Internal server error: 400: Text cannot be empty" := by decide
  have hstr2 : ("Internal server error: " ++
        httpExcStr 400 "Text too long (max 1000 characters)")
      = "Internal server error: 400: Text too long (max 1000 characters)" := by
    decide
  have hready : ¬((!true : Bool) = true) := by decide
  constructor
  · have h1 : pyStripS " " = "" := by decide
    unfold synthesize_speech_async
    rw [if_neg hready, if_pos h1, hstr]
  · have hrep : pyStrip (List.replicate 1001 'a') = List.replicate 1001 'a' := by
      apply pyStrip_eq_self
      · intro h0
        simp only [List.get_eq_getElem, List.getElem_replicate]
        decide
      · intro h1
        simp only [List.getLast_eq_getElem, List.getElem_replicate]
        decide
    have h2 : pyStripS (String.mk (List.replicate 1001 'a')) ≠ "" := by
      intro hcon
      rw [pyStripS_eq_empty_iff] at hcon
      rw [show (String.mk (List.replicate 1001 'a')).data
          = List.replicate 1001 'a' from rfl, hrep] at hcon
      have := congrArg List.length hcon
      simp at this
    have h3 : (String.mk (List.replicate 1001 'a')).length > 1000 := by
      show (List.replicate 1001 'a').length > 1000
      rw [List.length_replicate]
      norm_num
    unfold synthesize_speech_async
    rw [if_neg hready, if_neg h2, if_pos h3, hstr2]

/-! ## C6: artifact expiry versus job status -/

/-- C6: after a cleanup sweep at a time more than 60 seconds past the
artifact's modification time, fetching the `.wav` artifact returns 404 while
the job-status query still reports the job as `completed`. -/
theorem artifact_expired_fetch_404 (now : ℚ) (files : List (String × ℚ))
    (table : List (String × TTSStatus)) (id fname : String) (st : TTSStatus)
    (hlook : table.lookup id = some st) (hcomp : st.status = .completed)
    (hwav : pyEndsWith fname ".wav" = true)
    (hold : ∀ f ∈ files, f.1 = fname → now - f.2 > 60) :
    get_audio_file (cleanup_old_files now files) fname = .error 404 ∧
    get_task_status table id = .ok st ∧ st.status = .completed := by
  refine ⟨?_, ?_, hcomp⟩
  · have hnone : (cleanup_old_files now files).any (fun f => f.1 = fname) = false := by
      rw [List.any_eq_false]
      intro f hf
      rw [cleanup_old_files, List.mem_filter] at hf
      obtain ⟨hmem, hkeep⟩ := hf
      simp only [Bool.not_eq_eq_eq_not, Bool.not_true, Bool.and_eq_false_imp] at hkeep
      intro heq
      have heq' : f.1 = fname := by simpa using heq
      have hgt := hold f hmem heq'
      rw [heq'] at hkeep
      have := hkeep hwav
      simp [hgt] at this
    unfold get_audio_file
    rw [hnone]
    rfl
  · unfold get_task_status
    rw [hlook]

/-- Witness for C6: job `"j1"` completed, artifact `"j1.wav"` written at
`t = 5`, swept at `t = 70`. -/
theorem artifact_expired_fetch_404_witness :
    get_audio_file (cleanup_old_files 70 [("j1.wav", 5)]) "j1.wav" = .error 404 ∧
    get_task_status [("j1", ⟨.completed, 1, some "/tts/audio/j1.wav", none⟩)] "j1"
      = .ok ⟨.completed, 1, some "/tts/audio/j1.wav", none⟩ ∧
    (⟨.completed, 1, some "/tts/audio/j1.wav", none⟩ : TTSStatus).status = .completed :=
  artifact_expired_fetch_404 70 [("j1.wav", 5)]
    [("j1", ⟨.completed, 1, some "/tts/audio/j1.wav", none⟩)] "j1" "j1.wav"
    ⟨.completed, 1, some "/tts/audio/j1.wav", none⟩ rfl rfl (by decide)
    (by
      intro f hf heq
      simp only [List.mem_singleton] at hf
      subst hf
      show (70 : ℚ) - 5 > 60
      norm_num)

/-! ## C8: empty generation gets the fallback phrase and the turn continues -/

/-- C8: when recording and transcription succeed but the LLM's reply strips
to the empty string, the loop substitutes the fixed fallback phrase and the
turn still reaches step 4 (synthesis and playback) with that phrase — it is
neither skipped nor treated as an error. -/
theorem empty_generation_gets_fallback (audio : List ℝ)
    (transcript llmRaw : String)
    (htr : pyStripS transcript ≠ "") (hempty : pyStripS llmRaw = "") :
    conversationTurn (some audio) transcript (some llmRaw)
      = .completedTurn emptyReplyFallback := by
  simp only [conversationTurn, generate_response_wrapper]
  rw [pyStripS_idem, if_neg htr, hempty]
  rw [if_pos (show pyStripS "" = "" from rfl)]

/-- Witness for C8 with a nonempty transcript and a whitespace-only reply. -/
theorem empty_generation_gets_fallback_witness :
    conversationTurn (some [0]) "你好" (some " ")
      = .completedTurn emptyReplyFallback :=
  empty_generation_gets_fallback [0] "你好" " " (by decide) (by decide)

/-! ## Helper lemmas about the VAD capture loop -/

theorem vadLoop_chunks_extend (p : VadParams) (t0 : ℚ)
    (input : List (ℚ × List ℚ)) :
    ∀ (st : VadState) (acc : List (List ℚ)) (n : ℕ),
      acc <+: (vadLoop p t0 st acc n input).chunks := by
  induction input with
  | nil =>
    intro st acc n
    exact List.prefix_refl _
  | cons hd rest ih =>
    intro st acc n
    obtain ⟨t, c⟩ := hd
    have hacc : acc <+: (if 0 < c.length then acc ++ [c] else acc) := by
      split
      · exact List.prefix_append _ _
      · exact List.prefix_refl _
    simp only [vadLoop]
    by_cases hmax : vadStopMax p t0 t = true
    · simpa [hmax] using hacc
    · by_cases hsil : vadStopSilence p t0 (vadUpdate p st t c) t = true
      · simpa [hmax, hsil] using hacc
      · simp only [hmax, hsil, if_false, Bool.false_eq_true]
        exact hacc.trans (ih _ _ _)

theorem vadLoop_chunks_ne_nil (p : VadParams) (t0 : ℚ)
    (input : List (ℚ × List ℚ)) (st : VadState) (acc : List (List ℚ)) (n : ℕ)
    (h : acc ≠ []) : (vadLoop p t0 st acc n input).chunks ≠ [] := by
  intro he
  apply h
  have := vadLoop_chunks_extend p t0 input st acc n
  rw [he] at this
  exact List.prefix_nil.1 this

theorem vadLoop_consumed (p : VadParams) (t0 : ℚ) (input : List (ℚ × List ℚ)) :
    ∀ (st : VadState) (acc : List (List ℚ)) (n : ℕ),
      (vadLoop p t0 st acc n input).consumed =
        n + (match codeStopAfter p t0 st input with
             | some k => k + 1
             | none => input.length) := by
  induction input with
  | nil =>
    intro st acc n
    simp [vadLoop, codeStopAfter]
  | cons hd rest ih =>
    intro st acc n
    obtain ⟨t, c⟩ := hd
    simp only [vadLoop, codeStopAfter]
    by_cases hmax : vadStopMax p t0 t = true
    · have hcs : codeStop p t0 (vadUpdate p st t c) t = true := by
        simp [codeStop, hmax]
      simp [hmax, hcs]
    · by_cases hsil : vadStopSilence p t0 (vadUpdate p st t c) t = true
      · have hcs : codeStop p t0 (vadUpdate p st t c) t = true := by
          simp [codeStop, hsil]
        simp [hmax, hsil, hcs]
      · have hcs : ¬codeStop p t0 (vadUpdate p st t c) t = true := by
          simp [codeStop, hmax, hsil]
        simp only [hmax, hsil, hcs, if_false, Bool.false_eq_true]
        rw [ih]
        cases hrec : codeStopAfter p t0 (vadUpdate p st t c) rest with
        | none => simp [hrec, List.length_cons]; ring
        | some k => simp [hrec]; ring

theorem vadLoop_exhausted_iff (p : VadParams) (t0 : ℚ)
    (input : List (ℚ × List ℚ)) :
    ∀ (st : VadState) (acc : List (List ℚ)) (n : ℕ),
      ((vadLoop p t0 st acc n input).cause = .exhausted ↔
        codeStopAfter p t0 st input = none) := by
  induction input with
  | nil =>
    intro st acc n
    simp [vadLoop, codeStopAfter]
  | cons hd rest ih =>
    intro st acc n
    obtain ⟨t, c⟩ := hd
    simp only [vadLoop, codeStopAfter]
    by_cases hmax : vadStopMax p t0 t = true
    · have hcs : codeStop p t0 (vadUpdate p st t c) t = true := by
        simp [codeStop, hmax]
      simp [hmax, hcs]
    · by_cases hsil : vadStopSilence p t0 (vadUpdate p st t c) t = true
      · have hcs : codeStop p t0 (vadUpdate p st t c) t = true := by
          simp [codeStop, hsil]
        simp [hmax, hsil, hcs]
      · have hcs : ¬codeStop p t0 (vadUpdate p st t c) t = true := by
          simp [codeStop, hmax, hsil]
        simp only [hmax, hsil, hcs, if_false, Bool.false_eq_true]
        rw [ih]
        simp

/-! ## C1: `record_with_vad` and the no-speech case -/

/-- C1 counterexample: a recording in which no chunk's energy ever exceeds
the silence threshold still returns a buffer (not `None`) — the loop appends
every chunk to `audio_data`, and the final branch only checks that
`audio_data` is nonempty. -/
theorem record_vad_silent_counterexample :
    (∀ pr ∈ c1Input, ¬chunkEnergy pr.2 > defaultVadParams.silence_threshold) ∧
    record_with_vad defaultVadParams 0 c1Input ≠ none := by
  constructor
  · intro pr hpr
    fin_cases hpr <;>
      norm_num [chunkEnergy, defaultVadParams, cfgSilenceThreshold]
  · have h : (vadCapture defaultVadParams 0 c1Input).chunks
        = [[0], [0], [0], [0], [0], [0], [0]] := by
      norm_num [vadCapture, vadLoop, vadUpdate, vadStopMax, vadStopSilence,
        chunkEnergy, timeTruthy, initVadState, defaultVadParams,
        cfgSilenceThreshold, cfgSilenceDuration, c1Input]
    simp only [record_with_vad]
    rw [h]
    simp

/-- C1 (amended): `record_with_vad` returns a buffer whenever at least one
nonempty chunk was read — regardless of whether any chunk exceeded the
energy threshold; speech detection only influences early stopping, never the
`None`/buffer decision. -/
theorem record_with_vad_some_of_chunk (p : VadParams) (t0 t : ℚ)
    (c : List ℚ) (rest : List (ℚ × List ℚ)) (h : 0 < c.length) :
    record_with_vad p t0 ((t, c) :: rest) ≠ none := by
  have hne : (vadLoop p t0 initVadState [] 0 ((t, c) :: rest)).chunks ≠ [] := by
    simp only [vadLoop]
    rw [if_pos h]
    simp only [List.nil_append]
    by_cases hmax : vadStopMax p t0 t = true
    · simp [hmax]
    · by_cases hsil : vadStopSilence p t0 (vadUpdate p initVadState t c) t = true
      · simp [hmax, hsil]
      · simp only [hmax, hsil, if_false, Bool.false_eq_true]
        exact vadLoop_chunks_ne_nil p t0 rest _ [c] 1 (by simp)
  simp only [record_with_vad, vadCapture]
  rw [if_pos hne]
  simp

/-- Witness for the amended C1: a single silent-threshold-level chunk still
yields a buffer. -/
theorem record_with_vad_some_of_chunk_witness :
    record_with_vad defaultVadParams 0 [(0, [1])] ≠ none :=
  record_with_vad_some_of_chunk defaultVadParams 0 0 [1] [] (by decide)

/-! ## C2: when the capture loop stops -/

/-- C2 counterexample: with `min_duration = 1`, `max_duration = 5`,
`silence_duration = 2`, speech in the first chunk and silence thereafter,
the claim's non-strict condition first holds at iteration 3 (`t = 3`,
silence run exactly `2`), so the claim predicts 4 consumed iterations — but
the loop (strict `>`) runs a 5th iteration and stops only at `t = 4`. -/
theorem vad_stop_claim_counterexample :
    claimStopAfter defaultVadParams 0 initVadState c2Input = some 3 ∧
    (vadCapture defaultVadParams 0 c2Input).consumed = 5 ∧
    (vadCapture defaultVadParams 0 c2Input).consumed ≠ 3 + 1 ∧
    (vadCapture defaultVadParams 0 c2Input).cause = .silenceEnd := by
  have u0 : vadUpdate defaultVadParams initVadState 0 [1] = ⟨true, none⟩ := by
    norm_num [vadUpdate, chunkEnergy, initVadState, defaultVadParams,
      cfgSilenceThreshold]
  have u1 : vadUpdate defaultVadParams ⟨true, none⟩ 1 [0] = ⟨true, some 1⟩ := by
    norm_num [vadUpdate, chunkEnergy, defaultVadParams, cfgSilenceThreshold]
  have u2 : ∀ t : ℚ, vadUpdate defaultVadParams ⟨true, some 1⟩ t [0]
      = ⟨true, some 1⟩ := by
    intro t
    norm_num [vadUpdate, chunkEnergy, defaultVadParams, cfgSilenceThreshold]
    simp
  have k0 : claimStop defaultVadParams 0 ⟨true, none⟩ 0 = false := by
    norm_num [claimStop, defaultVadParams]
  have k1 : claimStop defaultVadParams 0 ⟨true, some 1⟩ 1 = false := by
    norm_num [claimStop, defaultVadParams, cfgSilenceDuration]
  have k2 : claimStop defaultVadParams 0 ⟨true, some 1⟩ 2 = false := by
    norm_num [claimStop, defaultVadParams, cfgSilenceDuration]
  have k3 : claimStop defaultVadParams 0 ⟨true, some 1⟩ 3 = true := by
    norm_num [claimStop, defaultVadParams, cfgSilenceDuration]
  have m0 : vadStopMax defaultVadParams 0 (0 : ℚ) = false := by
    norm_num [vadStopMax, defaultVadParams]
  have m1 : vadStopMax defaultVadParams 0 (1 : ℚ) = false := by
    norm_num [vadStopMax, defaultVadParams]
  have m2 : vadStopMax defaultVadParams 0 (2 : ℚ) = false := by
    norm_num [vadStopMax, defaultVadParams]
  have m3 : vadStopMax defaultVadParams 0 (3 : ℚ) = false := by
    norm_num [vadStopMax, defaultVadParams]
  have m4 : vadStopMax defaultVadParams 0 (4 : ℚ) = false := by
    norm_num [vadStopMax, defaultVadParams]
  have s0 : vadStopSilence defaultVadParams 0 ⟨true, none⟩ 0 = false := by
    norm_num [vadStopSilence, timeTruthy, defaultVadParams, cfgSilenceDuration]
  have s1 : vadStopSilence defaultVadParams 0 ⟨true, some 1⟩ 1 = false := by
    norm_num [vadStopSilence, timeTruthy, defaultVadParams, cfgSilenceDuration]
  have s2 : vadStopSilence defaultVadParams 0 ⟨true, some 1⟩ 2 = false := by
    norm_num [vadStopSilence, timeTruthy, defaultVadParams, cfgSilenceDuration]
  have s3 : vadStopSilence defaultVadParams 0 ⟨true, some 1⟩ 3 = false := by
    norm_num [vadStopSilence, timeTruthy, defaultVadParams, cfgSilenceDuration]
  have s4 : vadStopSilence defaultVadParams 0 ⟨true, some 1⟩ 4 = true := by
    norm_num [vadStopSilence, timeTruthy, defaultVadParams, cfgSilenceDuration]
  refine ⟨?_, ?_, ?_, ?_⟩
  · simp [c2Input, claimStopAfter, u0, u1, u2, k0, k1, k2, k3]
  · simp [c2Input, vadCapture, vadLoop, u0, u1, u2, m0, m1, m2, m3, m4,
      s0, s1, s2, s3, s4]
  · simp [c2Input, vadCapture, vadLoop, u0, u1, u2, m0, m1, m2, m3, m4,
      s0, s1, s2, s3, s4]
  · simp [c2Input, vadCapture, vadLoop, u0, u1, u2, m0, m1, m2, m3, m4,
      s0, s1, s2, s3, s4]

/-- C2 (amended): the capture loop stops exactly at the first iteration at
which the source's strict condition holds — `elapsed > maxDuration`, or
(`elapsed > minDuration` and speech has been observed and the current
sub-threshold silence run strictly exceeds `silenceDuration`); when the
supplied input prefix ends before that, the loop consumes it entirely. -/
theorem record_with_vad_stop_characterization (p : VadParams) (t0 : ℚ)
    (input : List (ℚ × List ℚ)) :
    (vadCapture p t0 input).consumed =
      (match codeStopAfter p t0 initVadState input with
       | some k => k + 1
       | none => input.length) ∧
    ((vadCapture p t0 input).cause = .exhausted ↔
      codeStopAfter p t0 initVadState input = none) := by
  constructor
  · simpa using vadLoop_consumed p t0 input initVadState [] 0
  · exact vadLoop_exhausted_iff p t0 input initVadState [] 0

/-! ## C5: job progress and status lifecycle -/

/-- C5 counterexample: in a successful run, the write that sets
`status = "completed"` happens while progress is still `0.9`; the next write
then changes the progress of the already-Completed job to `1.0` — so "once a
job is Completed its progress never changes again" fails at write
granularity. -/
theorem job_completed_then_progress_changes :
    ((jobWriteTrace "t" "wav" (.ok (some "p") true)).getD 5 initialJobRecord).status
      = .completed ∧
    ((jobWriteTrace "t" "wav" (.ok (some "p") true)).getD 5 initialJobRecord).progress
      = 9/10 ∧
    ((jobWriteTrace "t" "wav" (.ok (some "p") true)).getD 6 initialJobRecord).progress
      ≠ ((jobWriteTrace "t" "wav" (.ok (some "p") true)).getD 5 initialJobRecord).progress := by
  have hs : synthSucceeded (.ok (some "p") true) = true := by
    simp [synthSucceeded]
  refine ⟨?_, ?_, ?_⟩ <;> simp [jobWriteTrace, hs, initialJobRecord] <;> norm_num

/-- C5 (amended): over a job's write trace, progress is non-decreasing
through the checkpoints (0.1 and 0.3 always, 0.9 whenever the synthesis call
returns); the final record is terminal; final progress is `1` exactly for
Completed jobs and is below `1` for Failed jobs; the status never changes
once terminal; progress is frozen from the moment a job Fails, and frozen at
`1` from the moment it reaches `1` — but the Completed status itself is
written one step before the final `1.0` progress write. -/
theorem job_progress_lifecycle (taskId fmt : String) (oc : SynthOutcome) :
    List.Chain' (fun a b => a.progress ≤ b.progress) (jobWriteTrace taskId fmt oc) ∧
    ((jobWriteTrace taskId fmt oc).getLastD initialJobRecord).status.isTerminal
      = true ∧
    (((jobWriteTrace taskId fmt oc).getLastD initialJobRecord).progress = 1 ↔
      ((jobWriteTrace taskId fmt oc).getLastD initialJobRecord).status
        = .completed) ∧
    (((jobWriteTrace taskId fmt oc).getLastD initialJobRecord).status = .failed →
      ((jobWriteTrace taskId fmt oc).getLastD initialJobRecord).progress < 1) ∧
    List.Pairwise
      (fun a b => freezeRel (a.status, a.progress) (b.status, b.progress))
      (jobWriteTrace taskId fmt oc) ∧
    ((1 : ℚ)/10) ∈ (jobWriteTrace taskId fmt oc).map TTSStatus.progress ∧
    ((3 : ℚ)/10) ∈ (jobWriteTrace taskId fmt oc).map TTSStatus.progress ∧
    (∀ rp ex, oc = .ok rp ex →
      ((9 : ℚ)/10) ∈ (jobWriteTrace taskId fmt oc).map TTSStatus.progress) := by
  cases oc with
  | raises msg =>
    refine ⟨?_, ?_, ?_, ?_, ?_, ?_, ?_, ?_⟩ <;>
      simp [jobWriteTrace, initialJobRecord, freezeRel, JobStatus.isTerminal,
        List.chain'_cons, List.pairwise_cons] <;>
      norm_num
  | ok rp ex =>
    by_cases hs : synthSucceeded (.ok rp ex) = true
    · refine ⟨?_, ?_, ?_, ?_, ?_, ?_, ?_, ?_⟩ <;>
        simp [jobWriteTrace, hs, initialJobRecord, freezeRel,
          JobStatus.isTerminal, List.chain'_cons, List.pairwise_cons] <;>
        norm_num
    · refine ⟨?_, ?_, ?_, ?_, ?_, ?_, ?_, ?_⟩ <;>
        simp [jobWriteTrace, hs, initialJobRecord, freezeRel,
          JobStatus.isTerminal, List.chain'_cons, List.pairwise_cons] <;>
        norm_num

/-! ## C7: notification tone tables -/

theorem toneSamples_length (sr : ℕ) (f d : ℚ) :
    (toneSamples sr f d).length = (⌊(sr : ℚ) * d⌋).toNat := by
  simp only [toneSamples, List.length_map, List.length_range]

theorem applyFade_length (sr : ℕ) (xs : List ℝ) :
    (applyFade sr xs).length = xs.length := by
  simp only [applyFade]
  split
  · simp
  · rfl

/-- C7: `play_notification` maps `success` to 523/659/784 Hz at 150 ms each,
`error` to 523/440/349 Hz at 200 ms each, and `info` to a single 659 Hz tone
of 100 ms; each buffer is the concatenation of procedurally generated sine
tones with the 10 ms (160-sample) fade-in/fade-out genuinely applied (every
buffer is longer than `2 * 160` samples). -/
theorem play_notification_tone_tables :
    notificationParams "success" = ([523, 659, 784], 15/100) ∧
    notificationParams "error" = ([523, 440, 349], 2/10) ∧
    notificationParams "info" = ([659], 1/10) ∧
    playNotificationAudio "success" = applyFade 16000
      (toneSamples 16000 523 (15/100) ++ toneSamples 16000 659 (15/100) ++
        toneSamples 16000 784 (15/100)) ∧
    playNotificationAudio "error" = applyFade 16000
      (toneSamples 16000 523 (2/10) ++ toneSamples 16000 440 (2/10) ++
        toneSamples 16000 349 (2/10)) ∧
    playNotificationAudio "info" = applyFade 16000 (toneSamples 16000 659 (1/10)) ∧
    (playNotificationAudio "success").length = 7200 ∧
    (playNotificationAudio "error").length = 9600 ∧
    (playNotificationAudio "info").length = 1600 ∧
    (⌊(16000 : ℚ) * (1/100)⌋).toNat = 160 ∧
    2 * 160 < (playNotificationAudio "info").length := by
  have h2400 : (⌊((16000 : ℕ) : ℚ) * (15/100)⌋).toNat = 2400 := by
    rw [show ((16000 : ℕ) : ℚ) * (15/100) = 2400 by norm_num]
    simp
  have h3200 : (⌊((16000 : ℕ) : ℚ) * (2/10)⌋).toNat = 3200 := by
    rw [show ((16000 : ℕ) : ℚ) * (2/10) = 3200 by norm_num]
    simp
  have h1600 : (⌊((16000 : ℕ) : ℚ) * (1/10)⌋).toNat = 1600 := by
    rw [show ((16000 : ℕ) : ℚ) * (1/10) = 1600 by norm_num]
    simp
  have hps : notificationParams "success" = ([523, 659, 784], 15/100) := by
    unfold notificationParams
    rw [if_pos rfl]
  have hpe : notificationParams "error" = ([523, 440, 349], 2/10) := by
    unfold notificationParams
    rw [if_neg (by decide), if_pos rfl]
  have hpi : notificationParams "info" = ([659], 1/10) := by
    unfold notificationParams
    rw [if_neg (by decide), if_neg (by decide), if_pos rfl]
  have haudS : playNotificationAudio "success" = applyFade 16000
      (toneSamples 16000 523 (15/100) ++ toneSamples 16000 659 (15/100) ++
        toneSamples 16000 784 (15/100)) := by
    simp [playNotificationAudio, hps, cfgSampleRate, List.append_assoc]
  have haudE : playNotificationAudio "error" = applyFade 16000
      (toneSamples 16000 523 (2/10) ++ toneSamples 16000 440 (2/10) ++
        toneSamples 16000 349 (2/10)) := by
    simp [playNotificationAudio, hpe, cfgSampleRate, List.append_assoc]
  have haudI : playNotificationAudio "info"
      = applyFade 16000 (toneSamples 16000 659 (1/10)) := by
    simp [playNotificationAudio, hpi, cfgSampleRate]
  have hlenS : (playNotificationAudio "success").length = 7200 := by
    rw [haudS, applyFade_length, List.length_append, List.length_append,
      toneSamples_length, toneSamples_length, toneSamples_length, h2400]
  have hlenE : (playNotificationAudio "error").length = 9600 := by
    rw [haudE, applyFade_length, List.length_append, List.length_append,
      toneSamples_length, toneSamples_length, toneSamples_length, h3200]
  have hlenI : (playNotificationAudio "info").length = 1600 := by
    rw [haudI, applyFade_length, toneSamples_length, h1600]
  refine ⟨hps, hpe, hpi, haudS, haudE, haudI, hlenS, hlenE, hlenI, ?_, ?_⟩
  · rw [show ((16000 : ℚ) * (1/100)) = 160 by norm_num]
    simp
  · rw [hlenI]
    norm_num

end VoiceAI
